import Mathlib

set_option synthInstance.maxSize 512

/-!
A shallow embedding of `src/knowledge_representation/map_loader.py`, the SVG
map-annotation extractor of the `knowledge_representation` package, together
with theorems settling the specification claims about it.

Modelling conventions:
* Python floats are modelled as exact rationals (`ℚ`); `round(x, 3)` is
  modelled as `round3` (rounding of `x * 1000` to an integer, divided by
  1000).  Python rounds ties to even; no statement below depends on a tie.
* An XML element (`xml.etree.ElementTree.Element`) is modelled by `El`:
  a tag, an attribute list, the parsed geometry of its `d` attribute (the
  result of the external `svgpathtools.parse_path`, modelled as a list of
  segments, each either a straight line or some non-line segment), its
  children and its `text` field.
* Functions that can raise an uncaught Python exception are modelled with
  `Option`, `none` standing for the raised exception; `RuntimeError` raised
  by `get_group_transform` / `extract_line_from_path` and caught by callers
  is modelled by those functions returning `none` and the caller branching.
* The warning side channel (`warnings.warn`) is not modelled; a warned-and-
  skipped annotation simply contributes nothing to the result.
* `point_to_map_coords` lives in `map_image_utils` (an external collaborator
  per the spec); `transform_to_map_coords` is parametrised by that
  conversion function.
-/

namespace MapLoader

/-- A path segment as produced by `svgpathtools.parse_path` on a `d`
attribute: either a straight `Line` or some non-line segment (arc, Bézier);
only the endpoints are modelled. -/
inductive Seg where
  | line (s e : ℚ × ℚ)
  | curve (s e : ℚ × ℚ)
deriving DecidableEq

/-- The start point of a segment (`seg.start` in svgpathtools,
real part is x, imaginary part is y). -/
def Seg.start : Seg → ℚ × ℚ
  | .line s _ => s
  | .curve s _ => s

/-- `is_line(path_part)`: whether a segment is a straight line. -/
def is_line : Seg → Bool
  | .line _ _ => true
  | .curve _ _ => false

mutual
/-- An XML element: tag, attributes, parsed path geometry of the `d`
attribute (empty for non-path elements), children, and text content. -/
inductive El where
  | mk (tag : String) (attrs : List (String × String)) (geom : List Seg)
       (children : ElList) (text : Option String)
deriving DecidableEq
/-- Children of an element (a specialised list so that structural recursion
over the tree is available). -/
inductive ElList where
  | nil : ElList
  | cons (e : El) (rest : ElList) : ElList
deriving DecidableEq
end

def ElList.toList : ElList → List El
  | .nil => []
  | .cons e rest => e :: rest.toList

def ElList.ofList : List El → ElList
  | [] => .nil
  | e :: rest => .cons e (ElList.ofList rest)

def El.tag : El → String
  | .mk t _ _ _ _ => t

def El.attrs : El → List (String × String)
  | .mk _ a _ _ _ => a

def El.geom : El → List Seg
  | .mk _ _ g _ _ => g

def El.children : El → List El
  | .mk _ _ _ c _ => c.toList

def El.text : El → Option String
  | .mk _ _ _ _ x => x

/-- `element.attrib[k]` lookup, `none` when the attribute is absent. -/
def El.attr (e : El) (k : String) : Option String :=
  (e.attrs.find? (fun p => p.fst == k)).map Prod.snd

/-- Namespaced SVG tag names, as in the source module header. -/
def svgNS : String := "\x7bhttp://www.w3.org/2000/svg\x7d"

def svg_el : String := svgNS ++ "svg"

def image_el : String := svgNS ++ "image"

def text_el : String := svgNS ++ "text"

def circle_el : String := svgNS ++ "circle"

def line_el : String := svgNS ++ "line"

def poly_el : String := svgNS ++ "polygon"

def path_el : String := svgNS ++ "path"

def group_el : String := svgNS ++ "g"

def tspan_el : String := svgNS ++ "tspan"

/-- Greedy `\d*` / `\d+`: split a character list into its maximal leading
run of decimal digits and the remainder. -/
def takeDigits : List Char → List Char × List Char
  | [] => ([], [])
  | c :: cs =>
    if c.isDigit then
      let r := takeDigits cs
      (c :: r.1, r.2)
    else ([], c :: cs)

/-- Value of a digit string, most significant first. -/
def digitsVal (cs : List Char) : ℕ :=
  cs.foldl (fun a c => 10 * a + (c.toNat - 48)) 0

/-- The optional sign `[-+]?` at the head of the lexeme: its factor and
the remainder. -/
def parseSign : List Char → ℚ × List Char
  | '-' :: t => (-1, t)
  | '+' :: t => (1, t)
  | cs => (1, cs)

/-- The unsigned part of the float pattern `\d*\.\d+|\d+` after a sign
factor `sgn`: the first alternative requires at least one digit after the
dot; otherwise the second, integer-only, alternative applies, leaving the
dot unconsumed. -/
def parseAfterSign (sgn : ℚ) (cs : List Char) : Option (ℚ × List Char) :=
  let ds₁ := takeDigits cs
  match ds₁.2 with
  | '.' :: cs₃ =>
    let fs := takeDigits cs₃
    if fs.1.isEmpty then
      if ds₁.1.isEmpty then none
      else some (sgn * (digitsVal ds₁.1 : ℚ), ds₁.2)
    else
      some (sgn * ((digitsVal ds₁.1 : ℚ) + (digitsVal fs.1 : ℚ) / (10 : ℚ) ^ fs.1.length), fs.2)
  | _ =>
    if ds₁.1.isEmpty then none else some (sgn * (digitsVal ds₁.1 : ℚ), ds₁.2)

/-- Matching of the regex `[-+]?\d*\.\d+|[-+]?\d+` (`float_pattern`) at the
head of a character list, returning the value of the matched lexeme (the
value Python `float` gives it) and the unconsumed remainder. -/
def parseFloatLex (cs : List Char) : Option (ℚ × List Char) :=
  let s := parseSign cs
  parseAfterSign s.1 s.2

/-- Drop an exact literal from the head of a character list. -/
def dropLit : List Char → List Char → Option (List Char)
  | [], cs => some cs
  | _ :: _, [] => none
  | p :: ps, c :: cs => if c = p then dropLit ps cs else none

/-- `re.match(translation_pattern, s)` where `translation_pattern` is
`^translate\((F)\,(F)\)` with `F` the float pattern.  `re.match` anchors at
the start only — there is no end anchor, so trailing text after the closing
parenthesis is accepted.  Returns the values of the two captured groups. -/
def matchTranslate (s : String) : Option (ℚ × ℚ) :=
  match dropLit "translate(".data s.data with
  | none => none
  | some r₁ =>
    match parseFloatLex r₁ with
    | none => none
    | some (a, r₂) =>
      match r₂ with
      | ',' :: r₃ =>
        match parseFloatLex r₃ with
        | none => none
        | some (b, r₄) =>
          match r₄ with
          | ')' :: _ => some (a, b)
          | _ => none
      | _ => none

/-- Python `round(q, 3)`. -/
def round3 (q : ℚ) : ℚ := (round (q * 1000) : ℚ) / 1000

/-- Python `float(s)` restricted to the plain decimals that occur in the
documents (sign, digits, optional fractional part); other strings, on which
the real code raises `ValueError`, are mapped to 0. -/
def pyFloat (s : String) : ℚ :=
  match parseFloatLex s.data with
  | some (v, []) => v
  | _ => 0

/-- `float_s3(string) = round(float(string), 3)`. -/
def float_s3 (s : String) : ℚ := round3 (pyFloat s)

/-- `float_s3(element.attrib[k])`; a missing attribute, on which the real
code raises `KeyError`, is read as the empty string. -/
def float_s3A (e : El) (k : String) : ℚ := float_s3 ((e.attr k).getD "")

/-- `get_group_transform(group)`: `(0, 0)` when there is no `transform`
attribute; the rounded translation components when the attribute matches
`translation_pattern`; `none` models the `RuntimeError` raised otherwise. -/
def get_group_transform (g : El) : Option (ℚ × ℚ) :=
  match g.attr "transform" with
  | none => some (0, 0)
  | some t =>
    match matchTranslate t with
    | none => none
    | some (a, b) => some (round3 a, round3 b)

mutual
/-- All proper descendants of an element, in document (preorder) order: the
elements produced by the path `.//` relative to it. -/
def descEl (e : El) : List El :=
  match e with
  | .mk _ _ _ cs _ => descList cs
/-- Descendants of a list of siblings, in document order. -/
def descList : ElList → List El
  | .nil => []
  | .cons e es => e :: (descEl e ++ descList es)
end

mutual
/-- `tree.iter()` paired with each element's parent: the pairs from which
the source builds `parent_map = \x7bc: p for p in tree.iter() for c in p\x7d`. -/
def iterWithParent (p : Option El) (e : El) : List (El × Option El) :=
  match e with
  | .mk t a g cs x => (El.mk t a g cs x, p) :: iterWithParentL (some (El.mk t a g cs x)) cs
/-- `iterWithParent` over a sibling list. -/
def iterWithParentL (p : Option El) : ElList → List (El × Option El)
  | .nil => []
  | .cons e es => iterWithParent p e ++ iterWithParentL p es
end

/-- `parent_map[x]`: the parent of `x` in the tree under `root`.  Python
keys the dictionary by object identity; the model uses structural equality,
which coincides on trees whose nodes are pairwise distinct. -/
def parentMap (root x : El) : Option El :=
  ((iterWithParent none root).find? (fun pr => pr.1 == x)).bind Prod.snd

/-- First proper descendant with the given tag: `element.find(".//tag")`. -/
def findDesc (e : El) (t : String) : Option El :=
  (descEl e).find? (fun c => c.tag == t)

/-- First direct child with the given tag: `element.find("tag")`. -/
def findChild (e : El) (t : String) : Option El :=
  e.children.find? (fun c => c.tag == t)

/-- `tree.findall(".//tag[@class=cls]")`: all proper descendants with the
given tag whose `class` attribute equals `cls`, in document order. -/
def findTagged (root : El) (t cls : String) : List El :=
  (descEl root).filter (fun e => e.tag == t && e.attr "class" == some cls)

/-- Keep the first occurrence of every element (ElementTree deduplicates the
results of a `..` step while preserving first-occurrence order). -/
def dedupFirst (l : List El) : List El :=
  l.foldl (fun acc x => if acc.elem x then acc else acc ++ [x]) []

/-- `tree.findall(".//tag[@class=cls]/../text")`: the direct `text`-tagged
children of the (deduplicated) parents of the tagged shapes. -/
def taggedNames (root : El) (t cls : String) : List El :=
  (dedupFirst ((findTagged root t cls).filterMap (parentMap root))).flatMap
    (fun p => p.children.filter (fun c => c.tag == text_el))

/-- `get_text_from_group(group)`: the first descendant `tspan` (Inkscape
tucks labels there), falling back to the first descendant `text`. -/
def get_text_from_group (group : El) : Option El :=
  match findDesc group tspan_el with
  | some t => some t
  | none => findDesc group text_el

/-- `extract_line_from_path(path, translate)`: when the parsed path geometry
is a single straight line, its start and end coordinates rounded to 3
decimals plus the translation; `none` models the `RuntimeError` raised
otherwise.  (Callers always pass an explicit translation; the `None`
default of the source is never exercised.) -/
def extract_line_from_path (path : El) (translate : ℚ × ℚ) :
    Option ((ℚ × ℚ) × (ℚ × ℚ)) :=
  match path.geom with
  | [Seg.line s e] =>
    some ((round3 s.1 + translate.1, round3 s.2 + translate.2),
          (round3 e.1 + translate.1, round3 e.2 + translate.2))
  | _ => none

/-- A point record `(name, (x, y))`; the name is the `text` field of the
label element and may be `None`. -/
abbrev PointA := Option String × (ℚ × ℚ)

/-- A pose record `(name, start, end)`. -/
abbrev PoseA := Option String × (ℚ × ℚ) × (ℚ × ℚ)

/-- A region record `(name, vertices)`. -/
abbrev RegionA := Option String × List (ℚ × ℚ)

/-- A door record `(name, threshold, approach_points)`; the two approach
points are modelled as a pair since the source checks there are exactly
two. -/
abbrev DoorA := Option String × ((ℚ × ℚ) × (ℚ × ℚ)) × ((ℚ × ℚ) × (ℚ × ℚ))

/-- Python `zip` over three lists (truncates to the shortest). -/
def zip3 {α β γ : Type} : List α → List β → List γ → List (α × β × γ)
  | a :: as, b :: bs, c :: cs => (a, b, c) :: zip3 as bs cs
  | _, _, _ => []

/-- `process_point_annotations(point_names, point_annotations, point_groups)`:
for each tool-tagged circle, resolve the parent group transform (skipping
the point with a warning when that fails) and record the circle centre plus
the translation. -/
def process_point_annotations (point_names point_annotations point_groups : List El) :
    List PointA :=
  (zip3 point_annotations point_names point_groups).filterMap (fun pr =>
    match get_group_transform pr.2.2 with
    | none => none
    | some tr =>
      some (pr.2.1.text, (float_s3A pr.1 "cx" + tr.1, float_s3A pr.1 "cy" + tr.2)))

/-- `process_pose_annotations(pose_names, pose_annotations, pose_groups)`:
as for points, using the line endpoints `x1 y1 x2 y2`. -/
def process_pose_annotations (pose_names pose_annotations pose_groups : List El) :
    List PoseA :=
  (zip3 pose_annotations pose_names pose_groups).filterMap (fun pr =>
    match get_group_transform pr.2.2 with
    | none => none
    | some tr =>
      some (pr.2.1.text,
        (float_s3A pr.1 "x1" + tr.1, float_s3A pr.1 "y1" + tr.2),
        (float_s3A pr.1 "x2" + tr.1, float_s3A pr.1 "y2" + tr.2)))

/-- Helper for Python `str.split()` with no separator: accumulate the
current token (reversed) and split on spaces, dropping empty tokens. -/
def splitWsAux : List Char → List Char → List (List Char)
  | cur, [] => if cur.isEmpty then [] else [cur.reverse]
  | cur, c :: cs =>
    if c = ' ' then
      if cur.isEmpty then splitWsAux [] cs else cur.reverse :: splitWsAux [] cs
    else splitWsAux (c :: cur) cs

/-- Python `s.split()` restricted to spaces (the only whitespace in the
documents): maximal runs of non-space characters. -/
def pySplitWs (s : String) : List String :=
  (splitWsAux [] s.data).map (fun l => ⟨l⟩)

/-- Helper for Python `str.split(",")`: split on commas, keeping empty
parts. -/
def splitCommaAux : List Char → List Char → List (List Char)
  | cur, [] => [cur.reverse]
  | cur, c :: cs =>
    if c = ',' then cur.reverse :: splitCommaAux [] cs
    else splitCommaAux (c :: cur) cs

/-- Python `s.split(",")`. -/
def splitComma (s : String) : List String :=
  (splitCommaAux [] s.data).map (fun l => ⟨l⟩)

/-- The vertex list parsed from a polygon `points` attribute:
whitespace-separated tokens, each a comma-separated coordinate pair, each
component rounded to 3 decimals.  (A token without exactly two parts makes
the source raise a `ValueError` while unpacking; the model reads the first
two parts, defaulting to the empty string.) -/
def parsePolyPoints (s : String) : List (ℚ × ℚ) :=
  (pySplitWs s).map (fun tok =>
    let parts := splitComma tok
    (float_s3 (parts.getD 0 ""), float_s3 (parts.getD 1 "")))

/-- `process_region_annotations(region_names, region_annotations,
region_groups)`: for each tool-tagged polygon, parse its `points` attribute
and apply the parent group translation to every vertex. -/
def process_region_annotations (region_names region_annotations region_groups : List El) :
    List RegionA :=
  (zip3 region_annotations region_names region_groups).filterMap (fun pr =>
    match get_group_transform pr.2.2 with
    | none => none
    | some tr =>
      some (pr.2.1.text,
        (parsePolyPoints ((pr.1.attr "points").getD "")).map
          (fun p => (p.1 + tr.1, p.2 + tr.2))))

/-- `process_door_groups(door_groups)`: for each candidate door group, look
up its label (`None.text` on a label-less group is an uncaught
`AttributeError`, modelled as `none`), resolve the transform (skip with a
warning on failure), require exactly two circle children (skip with a
warning otherwise), take the translated circle centres as approach points,
and extract the threshold line from the direct path child (a missing path
child is an uncaught `AttributeError`; a multi-segment or non-line path is
a caught `RuntimeError`, skipping the door with a warning). -/
def process_door_groups : List El → Option (List DoorA)
  | [] => some []
  | g :: gs =>
    match get_text_from_group g with
    | none => none
    | some textEl =>
      match get_group_transform g with
      | none => process_door_groups gs
      | some tr =>
        match g.children.filter (fun c => c.tag == circle_el) with
        | [c₁, c₂] =>
          let ap₁ := (float_s3A c₁ "cx" + tr.1, float_s3A c₁ "cy" + tr.2)
          let ap₂ := (float_s3A c₂ "cx" + tr.1, float_s3A c₂ "cy" + tr.2)
          match findChild g path_el with
          | none => none
          | some p =>
            match extract_line_from_path p tr with
            | none => process_door_groups gs
            | some dl =>
              (process_door_groups gs).map (fun rest => (textEl.text, dl, (ap₁, ap₂)) :: rest)
        | _ => process_door_groups gs

/-- The loop body of `process_paths`: for each group of exactly two children
(others are silently skipped), find its label (skip with a warning when
missing), resolve the transform (skip with a warning on failure), and
interpret the descendant path: a single-line path becomes a pose; an
all-line path (vacuously including a zero-segment path) becomes a region
whose vertices are the rounded, translated segment start points; any other
path is skipped with a warning.  A group with no descendant path at all
would crash the source (`parse_path(None.attrib[...])`), modelled as
`none`. -/
def process_paths_go : List El → Option (List PoseA × List RegionA)
  | [] => some ([], [])
  | g :: gs =>
    if g.children.length ≠ 2 then process_paths_go gs
    else
      match get_text_from_group g with
      | none => process_paths_go gs
      | some textEl =>
        match get_group_transform g with
        | none => process_paths_go gs
        | some tr =>
          match findDesc g path_el with
          | none => none
          | some p =>
            match extract_line_from_path p tr with
            | some l =>
              (process_paths_go gs).map (fun r => ((textEl.text, l.1, l.2) :: r.1, r.2))
            | none =>
              if p.geom.all is_line then
                (process_paths_go gs).map (fun r =>
                  (r.1, (textEl.text,
                    p.geom.map (fun sg =>
                      (round3 sg.start.1 + tr.1, round3 sg.start.2 + tr.2))) :: r.2))
              else process_paths_go gs

/-- `process_paths(path_groups)`: poses and regions extracted from
Inkscape-style path groups (with the early return on an empty input). -/
def process_paths (path_groups : List El) : Option (List PoseA × List RegionA) :=
  if path_groups.length == 0 then some ([], [])
  else process_paths_go path_groups

/-- The untagged point-group loop of `load_svg`: for each two-child circle
group, look up its label (`None.text` is an uncaught `AttributeError`,
modelled as `none`), resolve the transform (skip with a warning on
failure), and — unless the circle carries a `class` attribute, meaning the
annotation tool already produced it and it was processed by the tagged
strategy — record the translated circle centre. -/
def process_point_groups : List El → Option (List PointA)
  | [] => some []
  | g :: gs =>
    match get_text_from_group g with
    | none => none
    | some textEl =>
      match get_group_transform g with
      | none => process_point_groups gs
      | some tr =>
        match findDesc g circle_el with
        | none => none
        | some c =>
          if (c.attr "class").isSome then process_point_groups gs
          else
            (process_point_groups gs).map (fun rest =>
              (textEl.text, (float_s3A c "cx" + tr.1, float_s3A c "cy" + tr.2)) :: rest)

/-- `load_svg(svg_data)` on the already-parsed document tree: gather the
tool-tagged circles, lines and polygons with their sibling text labels and
immediate parents; gather the heuristic path groups and the two- and
four-child circle groups; and assemble the four collections.  `none` models
the uncaught exceptions of the door-group, path-group and point-group
loops. -/
def load_svg (root : El) : Option (List PointA × List PoseA × List RegionA × List DoorA) :=
  let point_annotations := findTagged root circle_el "circle_annotation"
  let point_names := taggedNames root circle_el "circle_annotation"
  let pose_annotations := findTagged root line_el "pose_line_annotation"
  let pose_names := taggedNames root line_el "pose_line_annotation"
  let region_annotations := findTagged root poly_el "region_annotation"
  let region_names := taggedNames root poly_el "region_annotation"
  let path_groups := (descEl root).filter (fun g =>
    g.tag == group_el && g.children.any (fun c => c.tag == path_el))
  let circle_groups := (descEl root).filter (fun g =>
    g.tag == group_el && g.children.any (fun c => c.tag == circle_el))
  let point_groups := circle_groups.filter (fun g => g.children.length == 2)
  let door_groups := circle_groups.filter (fun g => g.children.length == 4)
  let point_parents := point_annotations.map (fun c => (parentMap root c).getD root)
  let points := process_point_annotations point_names point_annotations point_parents
  let pose_parents := pose_annotations.map (fun c => (parentMap root c).getD root)
  let poses := process_pose_annotations pose_names pose_annotations pose_parents
  let region_parents := region_annotations.map (fun c => (parentMap root c).getD root)
  let regions := process_region_annotations region_names region_annotations region_parents
  match process_door_groups door_groups with
  | none => none
  | some doors =>
    match process_paths path_groups with
    | none => none
    | some pr =>
      match process_point_groups point_groups with
      | none => none
      | some extra_points =>
        some (points ++ extra_points, poses ++ pr.1, regions ++ pr.2, doors)

/-- The nested `dim_match(element, w, h)` of `check_svg_valid`: silently
skipped when the `width` attribute is absent; reading `height` with `width`
present but `height` absent is an uncaught `KeyError` (`none`).  The exact
Python formatting of the message is abstracted. -/
def dim_match (e : El) (w h : ℕ) : Option (List String) :=
  match e.attr "width" with
  | none => some []
  | some ws =>
    match e.attr "height" with
    | none => none
    | some hs =>
      if pyFloat ws ≠ (w : ℚ) ∨ pyFloat hs ≠ (h : ℚ) then
        some ["SVG or image dimensions disagree with the YAML dimensions"]
      else some []

/-- The nested `ori_is_zero(element)` of `check_svg_valid`: silently skipped
when the `x` attribute is absent; reading `y` with `x` present but `y`
absent is an uncaught `KeyError` (`none`). -/
def ori_is_zero (e : El) : Option (List String) :=
  match e.attr "x" with
  | none => some []
  | some xs =>
    match e.attr "y" with
    | none => none
    | some ys =>
      if pyFloat xs ≠ 0 ∨ pyFloat ys ≠ 0 then
        some ["Image origin is not (0, 0)"]
      else some []

/-- `check_svg_valid(svg_data, map_info)` on the parsed root: the viewBox
comparison (an uncaught `KeyError` when the root has no `viewBox`
attribute), `dim_match` on the root, then `ori_is_zero` and `dim_match` on
the embedded image element (`tree.find(image_el)`; when there is none,
`ori_is_zero(None)` raises an uncaught `AttributeError`).  Returns the
accumulated advisory messages, `none` modelling a raised exception. -/
def check_svg_valid (svg : El) (w h : ℕ) : Option (List String) :=
  let image := findChild svg image_el
  match svg.attr "viewBox" with
  | none => none
  | some vb =>
    let target := "0 0 " ++ toString w ++ " " ++ toString h
    let p₁ := if vb ≠ target then
        ["SVG viewbox is " ++ vb ++ " but should be " ++ target]
      else []
    match dim_match svg w h with
    | none => none
    | some p₂ =>
      match image with
      | none => none
      | some img =>
        match ori_is_zero img with
        | none => none
        | some p₃ =>
          match dim_match img w h with
          | none => none
          | some p₄ => some (p₁ ++ p₂ ++ p₃ ++ p₄)

/-- The points loop of `transform_to_map_coords`, parametrised by the
external `point_to_map_coords(map_info, ·)` conversion. -/
def transform_points (f : ℚ × ℚ → ℚ × ℚ) : List PointA → List PointA
  | [] => []
  | (name, p) :: rest => (name, f p) :: transform_points f rest

/-- The poses loop of `transform_to_map_coords`. -/
def transform_poses (f : ℚ × ℚ → ℚ × ℚ) : List PoseA → List PoseA
  | [] => []
  | (name, p₁, p₂) :: rest => (name, f p₁, f p₂) :: transform_poses f rest

/-- The regions loop of `transform_to_map_coords`. -/
def transform_regions (f : ℚ × ℚ → ℚ × ℚ) : List RegionA → List RegionA
  | [] => []
  | (name, ps) :: rest => (name, ps.map f) :: transform_regions f rest

/-- The doors loop of `transform_to_map_coords`: both threshold endpoints
and both approach points are converted. -/
def transform_doors (f : ℚ × ℚ → ℚ × ℚ) : List DoorA → List DoorA
  | [] => []
  | (name, (d₁, d₂), (p₁, p₂)) :: rest =>
    (name, (f d₁, f d₂), (f p₁, f p₂)) :: transform_doors f rest

/-- `transform_to_map_coords(map_info, points, poses, regions, doors)`,
with the external per-map conversion `point_to_map_coords(map_info, ·)`
abstracted as `f`. -/
def transform_to_map_coords (f : ℚ × ℚ → ℚ × ℚ)
    (points : List PointA) (poses : List PoseA)
    (regions : List RegionA) (doors : List DoorA) :
    List PointA × List PoseA × List RegionA × List DoorA :=
  (transform_points f points, transform_poses f poses,
   transform_regions f regions, transform_doors f doors)

/-- The Coordinate Projector as the spec words it (§4.6): return new
collections with every coordinate replaced by its converted value,
preserving names, ordering, and door/approach-point pairing. -/
def projectSpec (f : ℚ × ℚ → ℚ × ℚ)
    (points : List PointA) (poses : List PoseA)
    (regions : List RegionA) (doors : List DoorA) :
    List PointA × List PoseA × List RegionA × List DoorA :=
  (points.map (fun x => (x.1, f x.2)),
   poses.map (fun x => (x.1, f x.2.1, f x.2.2)),
   regions.map (fun x => (x.1, x.2.map f)),
   doors.map (fun x => (x.1, (f x.2.1.1, f x.2.1.2), (f x.2.2.1, f x.2.2.2))))

/-- A signed decimal literal as matched by `float_pattern`: optional sign,
integer-part digits, and optionally a dot with fractional digits. -/
structure FloatLit where
  sign : Option Bool
  ip : List Char
  fp : Option (List Char)

/-- Well-formedness per the regex: all characters are digits, a fractional
part has at least one digit, and an integer-only literal has at least one
integer digit. -/
def FloatLit.wfb (f : FloatLit) : Bool :=
  f.ip.all Char.isDigit &&
    (match f.fp with
     | some l => !l.isEmpty && l.all Char.isDigit
     | none => !f.ip.isEmpty)

/-- The literal rendered as text. -/
def FloatLit.render (f : FloatLit) : String :=
  ⟨(match f.sign with | none => [] | some true => ['-'] | some false => ['+']) ++
    f.ip ++ (match f.fp with | some l => '.' :: l | none => [])⟩

/-- The numeric value of the literal. -/
def FloatLit.val (f : FloatLit) : ℚ :=
  (if f.sign = some true then -1 else 1) *
    ((digitsVal f.ip : ℚ) +
      match f.fp with
      | some l => (digitsVal l : ℚ) / (10 : ℚ) ^ l.length
      | none => 0)

/-- A heuristic path group as Inkscape produces it: a group holding one
path element (with the given parsed geometry) and one text label. -/
def pathGroup (nm : String) (segs : List Seg) : El :=
  .mk group_el [] []
    (.cons (.mk path_el [] segs .nil none)
      (.cons (.mk text_el [] [] .nil (some nm)) .nil)) none

/-- A heuristic door group: a group with the given attributes holding one
path element (with the given parsed geometry), two circles with the given
centre attributes, and one text label. -/
def doorG (trAttrs : List (String × String)) (segs : List Seg)
    (c1x c1y c2x c2y nm : String) : El :=
  .mk group_el trAttrs []
    (.ofList [.mk path_el [] segs .nil none,
      .mk circle_el [("cx", c1x), ("cy", c1y)] [] .nil none,
      .mk circle_el [("cx", c2x), ("cy", c2y)] [] .nil none,
      .mk text_el [] [] .nil (some nm)]) none

/-- A text label element with content `n`. -/
def txtN : El := .mk text_el [] [] .nil (some "n")

/-- A tool-tagged circle annotation at pixel (1, 2). -/
def circCx1Cy2 : El :=
  .mk circle_el [("class", "circle_annotation"), ("cx", "1"), ("cy", "2")] [] .nil none

/-- A group with a plain translation, enclosing a tagged circle and its
label. -/
def grpT55 : El :=
  .mk group_el [("transform", "translate(5,5)")] []
    (.cons circCx1Cy2 (.cons txtN .nil)) none

/-- A group whose transform chains a second function after a valid
translation, enclosing a tagged circle and its label. -/
def grpChain : El :=
  .mk group_el [("transform", "translate(1,2) scale(3)")] []
    (.cons circCx1Cy2 (.cons txtN .nil)) none

/-- A two-child point group holding a marked circle and a label. -/
def grpMarked : El :=
  .mk group_el [] [] (.cons circCx1Cy2 (.cons txtN .nil)) none

/-- A group carrying only a transform. -/
def grpT159 : El := .mk group_el [("transform", "translate(1.5,-2)")] [] .nil none

/-- A group with no transform attribute. -/
def grpNoT : El := .mk group_el [] [] .nil none

/-- A document root with width and height but no viewBox attribute,
holding an image element. -/
def svgNoVB : El :=
  .mk svg_el [("width", "5"), ("height", "5")] []
    (.cons (.mk image_el [] [] .nil none) .nil) none

/-- A document root with a viewBox and an attribute-less image element. -/
def svgOkC4 : El :=
  .mk svg_el [("viewBox", "0 0 5 5")] []
    (.cons (.mk image_el [] [] .nil none) .nil) none

/-- A four-child door-like group (path, two circles, and a rect) with no
text label anywhere. -/
def doorNoLabel : El :=
  .mk group_el [] []
    (.ofList [.mk path_el [] [Seg.line (0, 0) (0, 5)] .nil none,
      .mk circle_el [("cx", "1"), ("cy", "1")] [] .nil none,
      .mk circle_el [("cx", "2"), ("cy", "1")] [] .nil none,
      .mk (svgNS ++ "rect") [] [] .nil none]) none

/-- A two-child group (a path and a rect) with no text label anywhere. -/
def grpNoLabel2 : El :=
  .mk group_el [] []
    (.cons (.mk path_el [] [] .nil none)
      (.cons (.mk (svgNS ++ "rect") [] [] .nil none) .nil)) none

/-- The threshold path of the mixed door group below. -/
def pathC6 : El := .mk path_el [] [Seg.line (0, 0) (0, 5)] .nil none

/-- A tool-tagged circle sitting inside the door group below. -/
def circM : El :=
  .mk circle_el [("class", "circle_annotation"), ("cx", "1"), ("cy", "2")] [] .nil none

/-- An untagged circle of the door group below. -/
def circU : El := .mk circle_el [("cx", "3"), ("cy", "4")] [] .nil none

/-- The label of the door group below. -/
def textC6 : El := .mk text_el [] [] .nil (some "d")

/-- A four-child door group containing a tool-tagged circle: both the
tagged strategy and the heuristic door strategy match it. -/
def grpC6 : El := .mk group_el [] [] (.ofList [pathC6, circM, circU, textC6]) none

/-- A document holding only `grpC6`. -/
def docC6 : El := .mk svg_el [("viewBox", "0 0 10 10")] [] (.ofList [grpC6]) none

/-- A tool-tagged polygon with only two vertices. -/
def polyR : El :=
  .mk poly_el [("class", "region_annotation"), ("points", "0,0 1,1")] [] .nil none

/-- The label of the two-vertex polygon group. -/
def textR : El := .mk text_el [] [] .nil (some "r")

/-- The group holding the two-vertex polygon and its label. -/
def grpC7 : El := .mk group_el [] [] (.ofList [polyR, textR]) none

/-- A document holding only `grpC7`. -/
def docC7 : El := .mk svg_el [("viewBox", "0 0 10 10")] [] (.ofList [grpC7]) none

lemma takeDigits_append (ds r : List Char) (hds : ∀ c ∈ ds, c.isDigit = true)
    (hr : ∀ c, r.head? = some c → c.isDigit = false) :
    takeDigits (ds ++ r) = (ds, r) := by
  induction ds with
  | nil =>
    cases r with
    | nil => rfl
    | cons c cs =>
      have := hr c rfl
      simp [takeDigits, this]
  | cons d ds ih =>
    have hd := hds d (by simp)
    have h2 : takeDigits (ds ++ r) = (ds, r) := ih (fun c hc => hds c (by simp [hc]))
    simp [takeDigits, hd, h2]

lemma parseSign_other (cs : List Char)
    (h : ∀ c, cs.head? = some c → c ≠ '-' ∧ c ≠ '+') :
    parseSign cs = (1, cs) := by
  cases cs with
  | nil => rfl
  | cons c t =>
    obtain ⟨h1, h2⟩ := h c rfl
    unfold parseSign
    split
    · next heq => injection heq with hc _; exact absurd hc.symm (Ne.symm h1)
    · next heq => injection heq with hc _; exact absurd hc.symm (Ne.symm h2)
    · rfl

lemma parseAfterSign_frac (sgn : ℚ) (ip l r : List Char)
    (hip : ∀ c ∈ ip, c.isDigit = true)
    (hl : l ≠ []) (hld : ∀ c ∈ l, c.isDigit = true)
    (hr : ∀ c, r.head? = some c → c.isDigit = false) :
    parseAfterSign sgn (ip ++ '.' :: (l ++ r)) =
      some (sgn * ((digitsVal ip : ℚ) + (digitsVal l : ℚ) / (10 : ℚ) ^ l.length), r) := by
  have h1 : takeDigits (ip ++ '.' :: (l ++ r)) = (ip, '.' :: (l ++ r)) :=
    takeDigits_append _ _ hip (by intro c hc; simp at hc; subst hc; decide)
  have h2 : takeDigits (l ++ r) = (l, r) := takeDigits_append _ _ hld hr
  simp only [parseAfterSign, h1, h2]
  simp [List.isEmpty_iff, hl]

lemma parseAfterSign_int (sgn : ℚ) (ip r : List Char)
    (hip : ∀ c ∈ ip, c.isDigit = true) (hipne : ip ≠ [])
    (hr : ∀ c, r.head? = some c → c.isDigit = false ∧ c ≠ '.') :
    parseAfterSign sgn (ip ++ r) = some (sgn * (digitsVal ip : ℚ), r) := by
  have h1 : takeDigits (ip ++ r) = (ip, r) :=
    takeDigits_append _ _ hip (fun c hc => (hr c hc).1)
  simp only [parseAfterSign, h1]
  cases r with
  | nil => simp [List.isEmpty_iff, hipne]
  | cons c t =>
    have := hr c rfl
    split
    · next heq => injection heq with hc _; exact absurd hc this.2
    · simp [List.isEmpty_iff, hipne]

lemma parseFloatLex_render (f : FloatLit) (hf : f.wfb = true) (r : List Char)
    (hr : ∀ c, r.head? = some c → c.isDigit = false ∧ c ≠ '.') :
    parseFloatLex (f.render.data ++ r) = some (f.val, r) := by
  obtain ⟨sgn, ip, fp⟩ := f
  simp only [FloatLit.wfb, Bool.and_eq_true, List.all_eq_true] at hf
  obtain ⟨hip, hfp⟩ := hf
  cases fp with
  | none =>
    simp only at hfp
    have hipne : ip ≠ [] := by simpa [List.isEmpty_iff] using hfp
    have hbody : ∀ sg : ℚ, parseAfterSign sg (ip ++ r) =
        some (sg * ((digitsVal ip : ℚ) + 0), r) := by
      intro sg
      rw [parseAfterSign_int sg ip r hip hipne hr]
      ring_nf
    have hipHead : ∀ c, ip.head? = some c → c ≠ '-' ∧ c ≠ '+' := by
      intro c hc
      cases ip with
      | nil => simp at hc
      | cons d ds =>
        simp at hc
        subst hc
        have hd : d.isDigit = true := hip d (by simp)
        constructor <;> (intro hEq; subst hEq; simp [Char.isDigit] at hd)
    cases sgn with
    | none =>
      simp only [FloatLit.render, FloatLit.val, List.nil_append, List.append_nil]
      rw [parseFloatLex]
      rw [parseSign_other _ (by
        intro c hc
        rw [List.head?_append] at hc
        cases hh : ip.head? with
        | some d => rw [hh] at hc; simp at hc; subst hc; exact hipHead d hh
        | none =>
          exfalso
          rcases hip0 : ip with _ | ⟨d, ds⟩
          · exact hipne hip0
          · subst hip0; simp at hh)]
      rw [hbody 1]
      simp
    | some b =>
      cases b with
      | true =>
        simp only [FloatLit.render, FloatLit.val, List.cons_append, List.append_nil,
          List.append_assoc]
        rw [parseFloatLex]
        simp only [parseSign, List.nil_append]
        rw [hbody (-1)]
        simp
      | false =>
        simp only [FloatLit.render, FloatLit.val, List.cons_append, List.append_nil,
          List.append_assoc]
        rw [parseFloatLex]
        simp only [parseSign, List.nil_append]
        rw [hbody 1]
        simp
  | some l =>
    simp only [Bool.and_eq_true, List.all_eq_true] at hfp
    obtain ⟨hl, hld⟩ := hfp
    have hlne : l ≠ [] := by simpa [List.isEmpty_iff] using hl
    have hsplit : ip ++ '.' :: (l ++ r) = (ip ++ '.' :: l) ++ r := by simp
    have hbody : ∀ sg : ℚ, parseAfterSign sg ((ip ++ '.' :: l) ++ r) =
        some (sg * ((digitsVal ip : ℚ) + (digitsVal l : ℚ) / (10 : ℚ) ^ l.length), r) := by
      intro sg
      rw [← hsplit]
      exact parseAfterSign_frac sg ip l r hip hlne hld (fun c hc => (hr c hc).1)
    have hipHead : ∀ c, (ip ++ '.' :: l).head? = some c → c ≠ '-' ∧ c ≠ '+' := by
      intro c hc
      cases ip with
      | nil =>
        simp at hc
        subst hc
        decide
      | cons d ds =>
        simp at hc
        subst hc
        have hd : d.isDigit = true := hip d (by simp)
        constructor <;> (intro hEq; subst hEq; simp [Char.isDigit] at hd)
    cases sgn with
    | none =>
      simp only [FloatLit.render, FloatLit.val, List.nil_append]
      rw [parseFloatLex]
      rw [parseSign_other _ (by
        intro c hc
        apply hipHead c
        rw [List.head?_append] at hc
        cases hh : (ip ++ '.' :: l).head? with
        | some d => rw [hh] at hc; simp at hc; subst hc; rfl
        | none => exfalso; rcases ip with _ | ⟨d, ds⟩ <;> simp at hh)]
      rw [hbody 1]
      simp
    | some b =>
      cases b with
      | true =>
        simp only [FloatLit.render, FloatLit.val, List.cons_append, List.append_assoc]
        rw [parseFloatLex]
        simp only [parseSign, List.nil_append]
        rw [hsplit, hbody (-1)]
        simp
      | false =>
        simp only [FloatLit.render, FloatLit.val, List.cons_append, List.append_assoc]
        rw [parseFloatLex]
        simp only [parseSign, List.nil_append]
        rw [hsplit, hbody 1]
        simp


lemma strdata (s t : String) : (s ++ t).data = s.data ++ t.data := rfl

lemma dropLit_append (lit r : List Char) : dropLit lit (lit ++ r) = some r := by
  induction lit with
  | nil => rfl
  | cons c cs ih => simp [dropLit, ih]

lemma matchTranslate_render (a b : FloatLit) (ha : a.wfb = true) (hb : b.wfb = true)
    (suffix : String) :
    matchTranslate ("translate(" ++ a.render ++ "," ++ b.render ++ ")" ++ suffix) =
      some (a.val, b.val) := by
  have hcomma : ∀ c : Char, (',' :: (b.render.data ++ ')' :: suffix.data)).head? = some c →
      c.isDigit = false ∧ c ≠ '.' := by
    intro c hc; simp at hc; subst hc; decide
  have hparen : ∀ c : Char, (')' :: suffix.data).head? = some c →
      c.isDigit = false ∧ c ≠ '.' := by
    intro c hc; simp at hc; subst hc; decide
  unfold matchTranslate
  rw [show ("translate(" ++ a.render ++ "," ++ b.render ++ ")" ++ suffix).data =
      "translate(".data ++ (a.render.data ++ (',' :: (b.render.data ++ (')' :: suffix.data)))) from by
    simp only [strdata, List.append_assoc]; rfl]
  rw [dropLit_append]
  simp only [parseFloatLex_render a ha _ hcomma, parseFloatLex_render b hb _ hparen]

lemma get_group_transform_translate (g : El) (a b : FloatLit)
    (ha : a.wfb = true) (hb : b.wfb = true) (suffix : String)
    (h : g.attr "transform" = some ("translate(" ++ a.render ++ "," ++ b.render ++ ")" ++ suffix)) :
    get_group_transform g = some (round3 a.val, round3 b.val) := by
  unfold get_group_transform
  rw [h]
  simp only [matchTranslate_render a b ha hb suffix]

lemma strAppendEmpty (s : String) : s ++ "" = s := by
  apply String.ext
  rw [strdata]
  simp

lemma grpT55_transform : get_group_transform grpT55 = some (5, 5) := by
  simp [get_group_transform, grpT55, El.attr, El.attrs, matchTranslate, dropLit,
    parseFloatLex, parseSign, parseAfterSign, takeDigits, digitsVal, round3, round_eq]
  norm_num [Int.floor_eq_iff]

/-- C1: the claim says tool-tagged point, pose and region coordinates are
taken directly from the shape attributes with no enclosing-group
translation; the code adds the immediate parent translation, so a tagged
circle at (1, 2) inside a `translate(5,5)` group is extracted at (6, 7),
not (1, 2). -/
theorem spec_C1_cex :
    process_point_annotations [txtN] [circCx1Cy2] [grpT55] ≠ [(some "n", (1, 2))] ∧
    process_point_annotations [txtN] [circCx1Cy2] [grpT55] = [(some "n", (6, 7))] := by
  have h : process_point_annotations [txtN] [circCx1Cy2] [grpT55] = [(some "n", (6, 7))] := by
    simp [process_point_annotations, zip3, grpT55_transform, txtN, circCx1Cy2,
      El.attr, El.attrs, El.text, float_s3A, float_s3, pyFloat, parseFloatLex, parseSign,
      parseAfterSign, takeDigits, digitsVal, round3, round_eq]
    norm_num [Int.floor_eq_iff]
  refine ⟨?_, h⟩
  rw [h]
  simp

/-- C1 (amended): tool-tagged point, pose and region coordinates are the
shape attribute values rounded to 3 decimals plus the immediate parent
group resolved translation (and the annotation is skipped when the parent
transform does not resolve). -/
theorem spec_C1_thm (t c p : El) (dx dy : ℚ)
    (h : get_group_transform p = some (dx, dy)) :
    process_point_annotations [t] [c] [p] =
      [(t.text, (float_s3A c "cx" + dx, float_s3A c "cy" + dy))] ∧
    process_pose_annotations [t] [c] [p] =
      [(t.text, (float_s3A c "x1" + dx, float_s3A c "y1" + dy),
        (float_s3A c "x2" + dx, float_s3A c "y2" + dy))] ∧
    process_region_annotations [t] [c] [p] =
      [(t.text, (parsePolyPoints ((c.attr "points").getD "")).map
        (fun q => (q.1 + dx, q.2 + dy)))] := by
  refine ⟨?_, ?_, ?_⟩ <;>
    simp [process_point_annotations, process_pose_annotations,
      process_region_annotations, zip3, h]

/-- C1 witness: the amended statement at the tagged circle (1, 2) inside
the `translate(5,5)` group. -/
theorem spec_C1_wit :
    process_point_annotations [txtN] [circCx1Cy2] [grpT55] =
      [(txtN.text, (float_s3A circCx1Cy2 "cx" + 5, float_s3A circCx1Cy2 "cy" + 5))] ∧
    process_pose_annotations [txtN] [circCx1Cy2] [grpT55] =
      [(txtN.text, (float_s3A circCx1Cy2 "x1" + 5, float_s3A circCx1Cy2 "y1" + 5),
        (float_s3A circCx1Cy2 "x2" + 5, float_s3A circCx1Cy2 "y2" + 5))] ∧
    process_region_annotations [txtN] [circCx1Cy2] [grpT55] =
      [(txtN.text, (parsePolyPoints ((circCx1Cy2.attr "points").getD "")).map
        (fun q => (q.1 + 5, q.2 + 5)))] :=
  spec_C1_thm txtN circCx1Cy2 grpT55 5 5 grpT55_transform

/-- C2: the claim says a transform chaining a second function after a
valid translation is a resolution failure that skips the annotation; the
pattern has no end anchor, so `translate(1,2) scale(3)` resolves to
`(1, 2)` and the enclosed circle annotation is fully extracted. -/
theorem spec_C2_cex :
    get_group_transform grpChain = some (1, 2) ∧
    process_point_annotations [txtN] [circCx1Cy2] [grpChain] = [(some "n", (2, 4))] := by
  have h : get_group_transform grpChain = some (1, 2) := by
    simp [get_group_transform, grpChain, El.attr, El.attrs, matchTranslate, dropLit,
      parseFloatLex, parseSign, parseAfterSign, takeDigits, digitsVal, round3, round_eq]
    norm_num [Int.floor_eq_iff]
  refine ⟨h, ?_⟩
  simp [process_point_annotations, zip3, h, txtN, circCx1Cy2,
    El.attr, El.attrs, El.text, float_s3A, float_s3, pyFloat, parseFloatLex, parseSign,
    parseAfterSign, takeDigits, digitsVal, round3, round_eq]
  norm_num [Int.floor_eq_iff]

/-- C2 (amended): a transform whose text does not begin with a valid
`translate(A,B)` is a resolution failure and the caller skips the
annotation; but a transform beginning with a valid `translate(A,B)`
resolves to that rounded translation even when further text (for example a
chained function) follows, and extraction proceeds. -/
theorem spec_C2_thm (g : El) (a b : FloatLit)
    (ha : a.wfb = true) (hb : b.wfb = true) (suffix : String)
    (h : g.attr "transform" =
      some ("translate(" ++ a.render ++ "," ++ b.render ++ ")" ++ suffix)) :
    get_group_transform g = some (round3 a.val, round3 b.val) :=
  get_group_transform_translate g a b ha hb suffix h

/-- C2 witness: the amended statement at `translate(1,2) scale(3)`. -/
theorem spec_C2_wit :
    get_group_transform grpChain =
      some (round3 (FloatLit.val ⟨none, ['1'], none⟩),
            round3 (FloatLit.val ⟨none, ['2'], none⟩)) :=
  spec_C2_thm grpChain ⟨none, ['1'], none⟩ ⟨none, ['2'], none⟩
    (by decide) (by decide) " scale(3)" (by decide)

/-- C9: with no transform attribute the Transform Resolver returns (0, 0),
and on an exact `translate(A,B)` with `A` and `B` signed decimals it
returns the two values rounded to 3 decimals. -/
theorem spec_C9_thm :
    (∀ g : El, g.attr "transform" = none → get_group_transform g = some (0, 0)) ∧
    (∀ a b : FloatLit, a.wfb = true → b.wfb = true → ∀ g : El,
      g.attr "transform" = some ("translate(" ++ a.render ++ "," ++ b.render ++ ")") →
      get_group_transform g = some (round3 a.val, round3 b.val)) := by
  constructor
  · intro g h
    unfold get_group_transform
    rw [h]
  · intro a b ha hb g h
    apply get_group_transform_translate g a b ha hb ""
    rw [strAppendEmpty]
    exact h

/-- C9 witness: the two parts at a transform-less group and at
`translate(1.5,-2)`. -/
theorem spec_C9_wit :
    get_group_transform grpNoT = some (0, 0) ∧
    get_group_transform grpT159 =
      some (round3 (FloatLit.val ⟨none, ['1'], some ['5']⟩),
            round3 (FloatLit.val ⟨some true, ['2'], none⟩)) :=
  ⟨spec_C9_thm.1 grpNoT (by decide),
   spec_C9_thm.2 ⟨none, ['1'], some ['5']⟩ ⟨some true, ['2'], none⟩
     (by decide) (by decide) grpT159 (by decide)⟩

lemma tag_ne_tspan_path : (path_el == tspan_el) = false := by decide

lemma tag_ne_tspan_circle : (circle_el == tspan_el) = false := by decide

lemma tag_ne_tspan_text : (text_el == tspan_el) = false := by decide

lemma tag_ne_text_path : (path_el == text_el) = false := by decide

lemma tag_ne_text_circle : (circle_el == text_el) = false := by decide

lemma tag_eq_text : (text_el == text_el) = true := by decide

lemma tag_ne_circle_path : (path_el == circle_el) = false := by decide

lemma tag_eq_circle : (circle_el == circle_el) = true := by decide

lemma tag_ne_circle_text : (text_el == circle_el) = false := by decide

lemma tag_eq_path : (path_el == path_el) = true := by decide

lemma tag_ne_path_circle : (circle_el == path_el) = false := by decide

lemma tag_ne_path_text : (text_el == path_el) = false := by decide

lemma doorG_text (trAttrs : List (String × String)) (segs : List Seg)
    (c1x c1y c2x c2y nm : String) :
    get_text_from_group (doorG trAttrs segs c1x c1y c2x c2y nm) =
      some (El.mk text_el [] [] .nil (some nm)) := by
  simp [doorG, get_text_from_group, findDesc, descEl, descList, ElList.ofList,
    El.tag, tag_ne_tspan_path, tag_ne_tspan_circle, tag_ne_tspan_text,
    tag_ne_text_path, tag_ne_text_circle, tag_eq_text]

lemma doorG_circles (trAttrs : List (String × String)) (segs : List Seg)
    (c1x c1y c2x c2y nm : String) :
    (doorG trAttrs segs c1x c1y c2x c2y nm).children.filter
        (fun c => c.tag == circle_el) =
      [El.mk circle_el [("cx", c1x), ("cy", c1y)] [] .nil none,
       El.mk circle_el [("cx", c2x), ("cy", c2y)] [] .nil none] := by
  simp [doorG, El.children, ElList.toList, ElList.ofList, El.tag,
    tag_ne_circle_path, tag_eq_circle, tag_ne_circle_text]

lemma doorG_path (trAttrs : List (String × String)) (segs : List Seg)
    (c1x c1y c2x c2y nm : String) :
    findChild (doorG trAttrs segs c1x c1y c2x c2y nm) path_el =
      some (El.mk path_el [] segs .nil none) := by
  simp [doorG, findChild, El.children, ElList.toList, ElList.ofList, El.tag,
    tag_eq_path]

/-- C10: for an accepted door group whose transform resolves to (dx, dy),
the stored threshold endpoints are the single line segment start and end
coordinates rounded to 3 decimals plus (dx, dy): the group translation is
applied to the threshold itself, not only to the approach points. -/
theorem spec_C10_thm (trAttrs : List (String × String)) (segs : List Seg)
    (sx sy ex ey dx dy : ℚ) (c1x c1y c2x c2y nm : String)
    (h : get_group_transform (doorG trAttrs segs c1x c1y c2x c2y nm) = some (dx, dy))
    (hsegs : segs = [Seg.line (sx, sy) (ex, ey)]) :
    process_door_groups [doorG trAttrs segs c1x c1y c2x c2y nm] =
      some [(some nm,
        ((round3 sx + dx, round3 sy + dy), (round3 ex + dx, round3 ey + dy)),
        ((float_s3 c1x + dx, float_s3 c1y + dy),
         (float_s3 c2x + dx, float_s3 c2y + dy)))] := by
  subst hsegs
  simp only [process_door_groups, doorG_text, doorG_circles, doorG_path, h,
    extract_line_from_path, El.geom, El.text]
  simp [float_s3A, El.attr, El.attrs]

/-- C10 witness: a door group translated by (5, 7) whose threshold line
runs from (0, 0) to (0, 5). -/
theorem spec_C10_wit :
    process_door_groups
        [doorG [("transform", "translate(5,7)")] [Seg.line (0, 0) (0, 5)]
          "1" "1" "3" "1" "door1"] =
      some [(some "door1",
        ((round3 0 + 5, round3 0 + 7), (round3 0 + 5, round3 5 + 7)),
        ((float_s3 "1" + 5, float_s3 "1" + 7),
         (float_s3 "3" + 5, float_s3 "1" + 7)))] := by
  apply spec_C10_thm
  · simp [get_group_transform, doorG, El.attr, El.attrs, matchTranslate, dropLit,
      parseFloatLex, parseSign, parseAfterSign, takeDigits, digitsVal, round3, round_eq]
    norm_num [Int.floor_eq_iff]
  · rfl

lemma pathGroup_text (nm : String) (segs : List Seg) :
    get_text_from_group (pathGroup nm segs) =
      some (El.mk text_el [] [] .nil (some nm)) := by
  simp [pathGroup, get_text_from_group, findDesc, descEl, descList, ElList.ofList,
    El.tag, tag_ne_tspan_path, tag_ne_tspan_text, tag_ne_text_path, tag_eq_text]

lemma pathGroup_path (nm : String) (segs : List Seg) :
    findDesc (pathGroup nm segs) path_el = some (El.mk path_el [] segs .nil none) := by
  simp [pathGroup, findDesc, descEl, descList, ElList.ofList, El.tag, tag_eq_path]

lemma pathGroup_len (nm : String) (segs : List Seg) :
    (pathGroup nm segs).children.length = 2 := by
  simp [pathGroup, El.children, ElList.toList, ElList.ofList]

lemma pathGroup_transform (nm : String) (segs : List Seg) :
    get_group_transform (pathGroup nm segs) = some (0, 0) := by
  simp [get_group_transform, pathGroup, El.attr, El.attrs]

/-- C3: the claim says a heuristic path whose data parses to zero segments
is an extraction failure producing nothing; the all-lines check is
vacuously true on an empty segment list, so the code emits a region with an
empty vertex list instead. -/
theorem spec_C3_cex :
    process_paths [pathGroup "r" []] = some ([], [(some "r", [])]) := by
  decide

/-- C3 (amended): a heuristic path containing a non-line segment is an
extraction failure — the caller warns and skips it and no pose or region is
produced — but a path parsing to zero segments is treated as all-lines and
produces a region with an empty vertex list. -/
theorem spec_C3_thm (nm : String) (segs : List Seg)
    (h : ∃ s ∈ segs, is_line s = false) :
    process_paths [pathGroup nm segs] = some ([], []) ∧
    process_paths [pathGroup nm []] = some ([], [(some nm, [])]) := by
  constructor
  · have hEx : ∀ tr : ℚ × ℚ,
        extract_line_from_path (El.mk path_el [] segs .nil none) tr = none := by
      obtain ⟨s, hs, hnl⟩ := h
      intro tr
      unfold extract_line_from_path
      simp only [El.geom]
      cases segs with
      | nil => simp at hs
      | cons s1 rest =>
        cases rest with
        | nil =>
          simp at hs
          rw [hs] at hnl
          cases s1 with
          | line a b => simp [is_line] at hnl
          | curve a b => rfl
        | cons s2 rest2 => cases s1 <;> rfl
    have hAll : ¬ ∀ x ∈ segs, is_line x = true := by
      obtain ⟨s, hs, hnl⟩ := h
      intro hforall
      rw [hforall s hs] at hnl
      exact Bool.noConfusion hnl
    simp [process_paths, process_paths_go, pathGroup_len, pathGroup_text,
      pathGroup_transform, pathGroup_path, hEx, hAll, El.geom, El.text]
  · simp [process_paths, process_paths_go, pathGroup_len, pathGroup_text,
      pathGroup_transform, pathGroup_path, extract_line_from_path, El.geom, El.text]

/-- C3 witness: the amended statement at a single-arc path. -/
theorem spec_C3_wit :
    process_paths [pathGroup "w" [Seg.curve (0, 0) (1, 1)]] = some ([], []) ∧
    process_paths [pathGroup "w" []] = some ([], [(some "w", [])]) :=
  spec_C3_thm "w" [Seg.curve (0, 0) (1, 1)] (by decide)

/-- C5: the claim says a heuristic door group with no sub-label and no text
element is warned about and skipped while the parse continues; the code
dereferences the missing label (`None.text`) and the whole parse aborts
with an uncaught error instead. -/
theorem spec_C5_cex : process_door_groups [doorNoLabel] = none := by
  decide

/-- C5 (amended): a heuristic path group with neither a sub-label nor a
text element is skipped with a warning and the parse continues, but a door
group or point group with no label aborts the whole parse with an uncaught
error. -/
theorem spec_C5_thm :
    (∀ (g : El) (gs : List El), g.children.length = 2 →
      get_text_from_group g = none → process_paths (g :: gs) = process_paths gs) ∧
    (∀ (g : El) (gs : List El), get_text_from_group g = none →
      process_door_groups (g :: gs) = none) ∧
    (∀ (g : El) (gs : List El), get_text_from_group g = none →
      process_point_groups (g :: gs) = none) := by
  refine ⟨?_, ?_, ?_⟩
  · intro g gs hlen htext
    have h1 : process_paths_go (g :: gs) = process_paths_go gs := by
      simp [process_paths_go, hlen, htext]
    cases gs with
    | nil =>
      have e1 : process_paths [g] = process_paths_go [g] := by simp [process_paths]
      rw [e1, h1]
      simp [process_paths, process_paths_go]
    | cons x xs =>
      have e1 : process_paths (g :: x :: xs) = process_paths_go (g :: x :: xs) := by
        simp [process_paths]
      have e2 : process_paths (x :: xs) = process_paths_go (x :: xs) := by
        simp [process_paths]
      rw [e1, e2, h1]
  · intro g gs htext
    simp [process_door_groups, htext]
  · intro g gs htext
    simp [process_point_groups, htext]

/-- C5 witness: the amended statement at a label-less two-child path group. -/
theorem spec_C5_wit :
    process_paths [grpNoLabel2] = process_paths [] ∧
    process_door_groups [grpNoLabel2] = none ∧
    process_point_groups [grpNoLabel2] = none :=
  ⟨spec_C5_thm.1 grpNoLabel2 [] (by decide) (by decide),
   spec_C5_thm.2.1 grpNoLabel2 [] (by decide),
   spec_C5_thm.2.2 grpNoLabel2 [] (by decide)⟩

lemma c6_door_eval : process_door_groups [grpC6] =
    some [(some "d", ((0, 0), (0, 5)), ((1, 2), (3, 4)))] := by
  simp [process_door_groups, get_text_from_group, findDesc, findChild, descEl, descList,
    grpC6, pathC6, circM, circU, textC6, El.attr, El.attrs, El.tag, El.text, El.children,
    El.geom, ElList.toList, ElList.ofList, extract_line_from_path, Seg.start, is_line,
    get_group_transform, float_s3A, float_s3, pyFloat, parseFloatLex, parseSign,
    parseAfterSign, takeDigits, digitsVal, round3, round_eq, text_el, tspan_el, circle_el,
    path_el, group_el, svg_el, line_el, poly_el, svgNS]
  norm_num [Int.floor_eq_iff]

lemma c6_points_eval : process_point_annotations [textC6] [circM] [grpC6] =
    [(some "d", (1, 2))] := by
  simp [process_point_annotations, zip3, get_group_transform, grpC6, circM, textC6,
    El.attr, El.attrs, El.text, float_s3A, float_s3, pyFloat, parseFloatLex, parseSign,
    parseAfterSign, takeDigits, digitsVal, round3, round_eq]
  norm_num [Int.floor_eq_iff]

lemma c6_paths_eval : process_paths [grpC6] = some ([], []) := by
  simp [process_paths, process_paths_go, grpC6, El.children, ElList.toList, ElList.ofList]

/-- C6: the claim says an element consumed by the tool-tagged strategy is
never reprocessed heuristically, so no shape contributes twice; a tagged
circle inside a four-child door group is extracted both as a tagged point
(1, 2) and as the door approach point (1, 2), contributing twice. -/
theorem spec_C6_cex :
    load_svg docC6 =
      some ([(some "d", (1, 2))], [], [],
        [(some "d", ((0, 0), (0, 5)), ((1, 2), (3, 4)))]) := by
  have h1 : findTagged docC6 circle_el "circle_annotation" = [circM] := by decide
  have h2 : taggedNames docC6 circle_el "circle_annotation" = [textC6] := by decide
  have h3 : findTagged docC6 line_el "pose_line_annotation" = [] := by decide
  have h4 : taggedNames docC6 line_el "pose_line_annotation" = [] := by decide
  have h5 : findTagged docC6 poly_el "region_annotation" = [] := by decide
  have h6 : taggedNames docC6 poly_el "region_annotation" = [] := by decide
  have h7 : (descEl docC6).filter (fun g =>
      g.tag == group_el && g.children.any (fun c => c.tag == path_el)) = [grpC6] := by decide
  have h8 : (descEl docC6).filter (fun g =>
      g.tag == group_el && g.children.any (fun c => c.tag == circle_el)) = [grpC6] := by decide
  have h9 : (parentMap docC6 circM).getD docC6 = grpC6 := by decide
  have hE : [grpC6].filter (fun g => g.children.length == 2) = [] := by decide
  have hF : [grpC6].filter (fun g => g.children.length == 4) = [grpC6] := by decide
  rw [load_svg]
  simp only [h1, h2, h3, h4, h5, h6, h7, h8, hE, hF, List.map_cons, List.map_nil, h9,
    c6_points_eval, c6_door_eval, c6_paths_eval, process_point_groups,
    process_pose_annotations, process_region_annotations, zip3,
    List.filterMap_nil, List.append_nil, List.nil_append]

/-- C6 (amended): the heuristic point-group handler does skip circles
bearing a class marker (tool-tagged circles are not reprocessed as
heuristic points), but door-group processing performs no marker check, so a
marked circle inside a four-child door group is consumed by both
strategies. -/
theorem spec_C6_thm (g : El) (gs : List El) (t c : El) (tr : ℚ × ℚ)
    (h1 : get_text_from_group g = some t) (h2 : get_group_transform g = some tr)
    (h3 : findDesc g circle_el = some c) (h4 : (c.attr "class").isSome = true) :
    process_point_groups (g :: gs) = process_point_groups gs := by
  simp [process_point_groups, h1, h2, h3, h4]

/-- C6 witness: the amended statement at a two-child group holding a
marked circle. -/
theorem spec_C6_wit :
    process_point_groups [grpMarked] = process_point_groups [] :=
  spec_C6_thm grpMarked [] txtN circCx1Cy2 (0, 0)
    (by decide) (by decide) (by decide) (by decide)



lemma dim_match_isSome (e : El) (w h : ℕ)
    (hg : e.attr "width" = none ∨ ∃ s, e.attr "height" = some s) :
    (dim_match e w h).isSome = true := by
  cases hw : e.attr "width" with
  | none => simp [dim_match, hw]
  | some ws =>
    rcases hg with h0 | ⟨s, h1⟩
    · rw [hw] at h0
      exact absurd h0 (by simp)
    · unfold dim_match
      simp only [hw, h1]
      split <;> rfl

lemma ori_is_zero_isSome (e : El)
    (hg : e.attr "x" = none ∨ ∃ s, e.attr "y" = some s) :
    (ori_is_zero e).isSome = true := by
  cases hx : e.attr "x" with
  | none => simp [ori_is_zero, hx]
  | some xs =>
    rcases hg with h0 | ⟨s, h1⟩
    · rw [hx] at h0
      exact absurd h0 (by simp)
    · unfold ori_is_zero
      simp only [hx, h1]
      split <;> rfl

/-- C4: the claim says the Consistency Checker never raises, each check
silently skipping itself when the attribute or element it needs is absent;
a well-formed document whose root lacks a viewBox attribute makes the
checker raise (a `KeyError` on the unguarded `viewBox` lookup). -/
theorem spec_C4_cex : check_svg_valid svgNoVB 5 5 = none := by
  decide

/-- C4 (amended): the width/height checks skip themselves when `width` is
absent and the origin check skips itself when `x` is absent, but the
checker presupposes a `viewBox` attribute on the root, an embedded image
element, and the paired `height` (resp. `y`) attribute wherever the
guarding `width` (resp. `x`) attribute is present; under those conditions
it returns a list of advisory messages without raising. -/
theorem spec_C4_thm (svg img : El) (w h : ℕ) (vb : String)
    (hvb : svg.attr "viewBox" = some vb)
    (himg : findChild svg image_el = some img)
    (hsw : svg.attr "width" = none ∨ ∃ s, svg.attr "height" = some s)
    (hix : img.attr "x" = none ∨ ∃ s, img.attr "y" = some s)
    (hiw : img.attr "width" = none ∨ ∃ s, img.attr "height" = some s) :
    (check_svg_valid svg w h).isSome = true := by
  obtain ⟨l1, h1⟩ := Option.isSome_iff_exists.mp (dim_match_isSome svg w h hsw)
  obtain ⟨l2, h2⟩ := Option.isSome_iff_exists.mp (ori_is_zero_isSome img hix)
  obtain ⟨l3, h3⟩ := Option.isSome_iff_exists.mp (dim_match_isSome img w h hiw)
  simp [check_svg_valid, hvb, himg, h1, h2, h3]

/-- C4 witness: the amended statement at a document with a viewBox and an
attribute-less image element. -/
theorem spec_C4_wit : (check_svg_valid svgOkC4 5 5).isSome = true :=
  spec_C4_thm svgOkC4 (El.mk image_el [] [] .nil none) 5 5 "0 0 5 5"
    (by decide) (by decide) (Or.inl (by decide)) (Or.inl (by decide))
    (Or.inl (by decide))

lemma c7_regions_eval : process_region_annotations [textR] [polyR] [grpC7] =
    [(some "r", [(0, 0), (1, 1)])] := by
  have hTok : pySplitWs "0,0 1,1" = ["0,0", "1,1"] := by decide
  have hC1 : splitComma "0,0" = ["0", "0"] := by decide
  have hC2 : splitComma "1,1" = ["1", "1"] := by decide
  simp [process_region_annotations, zip3, get_group_transform, grpC7, polyR, textR,
    El.attr, El.attrs, El.text, parsePolyPoints, hTok, hC1, hC2,
    float_s3, pyFloat, parseFloatLex, parseSign, parseAfterSign, takeDigits, digitsVal,
    round3, round_eq]
  norm_num [Int.floor_eq_iff]

/-- C7: the claim says every region in the output collection has at least
three vertices; a tool-tagged polygon whose points attribute lists only two
vertices is extracted as a region with exactly two vertices. -/
theorem spec_C7_cex :
    load_svg docC7 = some ([], [], [(some "r", [(0, 0), (1, 1)])], []) := by
  have h1 : findTagged docC7 circle_el "circle_annotation" = [] := by decide
  have h2 : taggedNames docC7 circle_el "circle_annotation" = [] := by decide
  have h3 : findTagged docC7 line_el "pose_line_annotation" = [] := by decide
  have h4 : taggedNames docC7 line_el "pose_line_annotation" = [] := by decide
  have h5 : findTagged docC7 poly_el "region_annotation" = [polyR] := by decide
  have h6 : taggedNames docC7 poly_el "region_annotation" = [textR] := by decide
  have h7 : (descEl docC7).filter (fun g =>
      g.tag == group_el && g.children.any (fun c => c.tag == path_el)) = [] := by decide
  have h8 : (descEl docC7).filter (fun g =>
      g.tag == group_el && g.children.any (fun c => c.tag == circle_el)) = [] := by decide
  have h9 : (parentMap docC7 polyR).getD docC7 = grpC7 := by decide
  rw [load_svg]
  simp only [h1, h2, h3, h4, h5, h6, h7, h8, List.map_cons, List.map_nil, h9,
    c7_regions_eval, process_point_groups, process_point_annotations,
    process_pose_annotations, process_door_groups, process_paths, zip3,
    List.filterMap_nil, List.filter_nil, List.append_nil, List.nil_append,
    List.length_nil]
  rfl

/-- C7 (amended): region vertex sequences preserve the source order of the
path segment start points, but no minimum length is enforced: an all-line
path of any segment count other than one yields a region with exactly that
many vertices, including fewer than three. -/
theorem spec_C7_thm (nm : String) (segs : List Seg)
    (hall : ∀ s ∈ segs, is_line s = true) (hlen : segs.length ≠ 1) :
    process_paths [pathGroup nm segs] =
      some ([], [(some nm,
        segs.map (fun sg => (round3 sg.start.1, round3 sg.start.2)))]) := by
  have hEx : ∀ tr : ℚ × ℚ,
      extract_line_from_path (El.mk path_el [] segs .nil none) tr = none := by
    intro tr
    unfold extract_line_from_path
    simp only [El.geom]
    cases segs with
    | nil => rfl
    | cons s1 rest =>
      cases rest with
      | nil => exact absurd rfl hlen
      | cons s2 rest2 => cases s1 <;> rfl
  simp [process_paths, process_paths_go, pathGroup_len, pathGroup_text,
    pathGroup_transform, pathGroup_path, hEx, hall, El.geom, El.text]
  exact hall

/-- C7 witness: the amended statement at a two-segment all-line path. -/
theorem spec_C7_wit :
    process_paths [pathGroup "w2" [Seg.line (0, 0) (1, 0), Seg.line (1, 0) (1, 1)]] =
      some ([], [(some "w2",
        [Seg.line ((0 : ℚ), (0 : ℚ)) (1, 0), Seg.line (1, 0) (1, 1)].map
          (fun sg => (round3 sg.start.1, round3 sg.start.2)))]) :=
  spec_C7_thm "w2" [Seg.line (0, 0) (1, 0), Seg.line (1, 0) (1, 1)]
    (by decide) (by decide)

lemma transform_points_eq_map (f : ℚ × ℚ → ℚ × ℚ) (ps : List PointA) :
    transform_points f ps = ps.map (fun x => (x.1, f x.2)) := by
  induction ps with
  | nil => rfl
  | cons a rest ih =>
    obtain ⟨n, p⟩ := a
    simp [transform_points, ih]

lemma transform_poses_eq_map (f : ℚ × ℚ → ℚ × ℚ) (qs : List PoseA) :
    transform_poses f qs = qs.map (fun x => (x.1, f x.2.1, f x.2.2)) := by
  induction qs with
  | nil => rfl
  | cons a rest ih =>
    obtain ⟨n, p₁, p₂⟩ := a
    simp [transform_poses, ih]

lemma transform_regions_eq_map (f : ℚ × ℚ → ℚ × ℚ) (rs : List RegionA) :
    transform_regions f rs = rs.map (fun x => (x.1, x.2.map f)) := by
  induction rs with
  | nil => rfl
  | cons a rest ih =>
    obtain ⟨n, ps⟩ := a
    simp [transform_regions, ih]

lemma transform_doors_eq_map (f : ℚ × ℚ → ℚ × ℚ) (ds : List DoorA) :
    transform_doors f ds =
      ds.map (fun x => (x.1, (f x.2.1.1, f x.2.1.2), (f x.2.2.1, f x.2.2.2))) := by
  induction ds with
  | nil => rfl
  | cons a rest ih =>
    obtain ⟨n, ⟨d₁, d₂⟩, p₁, p₂⟩ := a
    simp [transform_doors, ih]

/-- C8: projecting the extracted collections through the external
conversion replaces every coordinate in all four collections with its
converted value (the refinement of the Coordinate Projector against the
literal spec wording), while names, element counts, ordering, region
vertex counts, and door/approach-point pairing agree exactly with the
raw-pixel-mode collections. -/
theorem spec_C8_thm (f : ℚ × ℚ → ℚ × ℚ) (ps : List PointA) (qs : List PoseA)
    (rs : List RegionA) (ds : List DoorA) :
    transform_to_map_coords f ps qs rs ds = projectSpec f ps qs rs ds ∧
    (transform_points f ps).map Prod.fst = ps.map Prod.fst ∧
    (transform_poses f qs).map Prod.fst = qs.map Prod.fst ∧
    (transform_regions f rs).map Prod.fst = rs.map Prod.fst ∧
    (transform_doors f ds).map Prod.fst = ds.map Prod.fst ∧
    (transform_points f ps).length = ps.length ∧
    (transform_poses f qs).length = qs.length ∧
    (transform_regions f rs).length = rs.length ∧
    (transform_doors f ds).length = ds.length ∧
    (transform_regions f rs).map (fun r => r.2.length) =
      rs.map (fun r => r.2.length) := by
  refine ⟨?_, ?_, ?_, ?_, ?_, ?_, ?_, ?_, ?_, ?_⟩ <;>
    simp [transform_to_map_coords, projectSpec, transform_points_eq_map,
      transform_poses_eq_map, transform_regions_eq_map, transform_doors_eq_map,
      List.map_map, Function.comp]

end MapLoader
